import Mathlib

/-!
Verification of the Graphene-HA concurrency-escape analyzer.

This file shallowly embeds the pure computational core of the repository:
the protocol data model (`src/protocol.rs`), the Rust static escape analyzer
(`src/static_analyzer/rust.rs`), the analyzer-registry file predicates
(`src/analyzer/*.rs`), the orchestrator's source-file resolution, input
generation and response merging (`src/orchestrator.rs`), and the dynamic
probe loop of the Rust bridge (`analyzers/rust-bridge/src/main.rs`).

Rust `&str` values are modelled as Lean `String` (with `List Char` as the
working representation inside the scanners); `usize`/`u64` as `Nat`;
`f64` as `ℚ` (the crash-rate division is exact on the modelled values);
`HashSet` as an insertion-ordered duplicate-free list (only membership and
cardinality-free iteration are used by the code); filesystem existence
checks and wall-clock timings are passed in as explicit parameters.
-/

namespace GrapheneHA

/-! ### Character/string helpers shared by the embedded scanners

These model the Rust `str` primitives used by the source: `find`/`contains`
(first-occurrence substring search), `split`, `trim`, `starts_with`,
`ends_with`, `strip_prefix`, `trim_start_matches`. -/

/-- Rust `char::is_alphanumeric` / `ch == '_'` as used by the identifier
loops of the Rust scanner (sources are ASCII, so ASCII alphanumerics
suffice). -/
def identChar (c : Char) : Bool := c.isAlphanum || c == '_'

/-- Index of the first occurrence of `pat` in `s` (Rust `str::find` on a
string pattern; for the ASCII sources byte and character indices agree). -/
def findSubIdx : List Char → List Char → Option Nat
  | [], pat => if pat.isEmpty then some 0 else none
  | c :: t, pat =>
    if pat.isPrefixOf (c :: t) then some 0 else (findSubIdx t pat).map (· + 1)

/-- Rust `str::contains` for a string pattern. -/
def containsSub (s pat : List Char) : Bool := (findSubIdx s pat).isSome

/-- Everything after the first occurrence of `pat` in `s`. -/
def afterSub (s pat : List Char) : Option (List Char) :=
  (findSubIdx s pat).map (fun i => s.drop (i + pat.length))

/-- Rust `str::split(c)`: `"a:b"` splits to `["a","b"]`, `""` to `[""]`. -/
def splitOnChar (c : Char) : List Char → List (List Char)
  | [] => [[]]
  | x :: t =>
    if x = c then [] :: splitOnChar c t
    else
      match splitOnChar c t with
      | h :: r => (x :: h) :: r
      | [] => [x :: t]

/-- Rust `str::trim_start`. -/
def trimLeftList (s : List Char) : List Char := s.dropWhile Char.isWhitespace

/-- Rust `str::trim`: drop whitespace from both ends. -/
def trimList (s : List Char) : List Char :=
  trimLeftList ((trimLeftList s.reverse).reverse)

/-- Rust `str::ends_with`. -/
def strEndsWith (s pat : String) : Bool := pat.data.isSuffixOf s.data

/-- Rust `str::contains(char)`. -/
def strContainsChar (s : String) (c : Char) : Bool := s.data.contains c

/-- Rust `str::contains(&str)` at the `String` level. -/
def strContainsSub (s pat : String) : Bool := containsSub s.data pat.data

/-- Rust `str::repeat`. -/
def strRepeat (s : String) (n : Nat) : String := String.join (List.replicate n s)

/-- `HashSet::insert` modelled on an insertion-ordered duplicate-free list. -/
def listInsert (xs : List String) (x : String) : List String :=
  if x ∈ xs then xs else xs ++ [x]

/-- The opening brace character (used by the brace counters). -/
def lbrace : Char := Char.ofNat 123

/-- The closing brace character. -/
def rbrace : Char := Char.ofNat 125

/-! ### Protocol data model (`src/protocol.rs`) -/

/-- `protocol.rs` `AnalysisMode`. -/
inductive AnalysisMode where
  | Dynamic
  | Static
  | Both
deriving DecidableEq, Repr

/-- `protocol.rs` `EscapeType`. -/
inductive EscapeType where
  | ReturnEscape
  | ParameterEscape
  | GlobalEscape
  | ClosureEscape
  | HeapEscape
  | ConcurrencyEscape
  | UnknownEscape
deriving DecidableEq, Repr

/-- `protocol.rs` `ConfidenceLevel`. -/
inductive ConfidenceLevel where
  | Low
  | Medium
  | High
deriving DecidableEq, Repr

/-- `protocol.rs` `SourceLocation`. -/
structure SourceLocation where
  file : String
  line : Nat
  column : Nat
  function : String
  code_snippet : Option String
deriving DecidableEq, Repr

/-- `protocol.rs` `StaticEscape`. -/
structure StaticEscape where
  escape_type : EscapeType
  location : SourceLocation
  variable_name : String
  reason : String
  confidence : ConfidenceLevel
  data_flow : List String
deriving DecidableEq, Repr

/-- `protocol.rs` `StaticEscapeSummary`. -/
structure StaticEscapeSummary where
  total_escapes : Nat
  return_escapes : Nat
  parameter_escapes : Nat
  global_escapes : Nat
  closure_escapes : Nat
  heap_escapes : Nat
  concurrency_escapes : Nat
  high_confidence : Nat
  medium_confidence : Nat
  low_confidence : Nat
deriving DecidableEq, Repr

/-- `StaticEscapeSummary::new`. -/
def StaticEscapeSummary.new : StaticEscapeSummary :=
  { total_escapes := 0, return_escapes := 0, parameter_escapes := 0
    global_escapes := 0, closure_escapes := 0, heap_escapes := 0
    concurrency_escapes := 0, high_confidence := 0, medium_confidence := 0
    low_confidence := 0 }

/-- `StaticEscapeSummary::add_escape` (`src/protocol.rs:208-224`). -/
def StaticEscapeSummary.add_escape (s : StaticEscapeSummary) (escape : StaticEscape) :
    StaticEscapeSummary :=
  let s := { s with total_escapes := s.total_escapes + 1 }
  let s :=
    match escape.escape_type with
    | .ReturnEscape => { s with return_escapes := s.return_escapes + 1 }
    | .ParameterEscape => { s with parameter_escapes := s.parameter_escapes + 1 }
    | .GlobalEscape => { s with global_escapes := s.global_escapes + 1 }
    | .ClosureEscape => { s with closure_escapes := s.closure_escapes + 1 }
    | .HeapEscape => { s with heap_escapes := s.heap_escapes + 1 }
    | .ConcurrencyEscape => { s with concurrency_escapes := s.concurrency_escapes + 1 }
    | .UnknownEscape => s
  match escape.confidence with
  | .High => { s with high_confidence := s.high_confidence + 1 }
  | .Medium => { s with medium_confidence := s.medium_confidence + 1 }
  | .Low => { s with low_confidence := s.low_confidence + 1 }

/-- `protocol.rs` `StaticAnalysisResult`. -/
structure StaticAnalysisResult where
  target : String
  source_file : String
  escapes : List StaticEscape
  analysis_time_ms : Nat
  warnings : List String
  summary : StaticEscapeSummary
deriving DecidableEq, Repr

/-- `protocol.rs` `ThreadEscape`. -/
structure ThreadEscape where
  thread_id : String
  name : String
  is_daemon : Bool
  state : String
  stack_trace : Option (List String)
deriving DecidableEq, Repr

/-- `protocol.rs` `ProcessEscape`. -/
structure ProcessEscape where
  pid : Nat
  name : String
  cmdline : Option String
deriving DecidableEq, Repr

/-- `protocol.rs` `AsyncTaskEscape`. -/
structure AsyncTaskEscape where
  task_id : String
  task_type : String
  state : String
deriving DecidableEq, Repr

/-- `protocol.rs` `GoroutineEscape`. -/
structure GoroutineEscape where
  goroutine_id : Nat
  state : String
  function : String
deriving DecidableEq, Repr

/-- `protocol.rs` `EscapeDetails` (the rust bridge declares an identical
shape; both are modelled by this one structure). -/
structure EscapeDetails where
  threads : List ThreadEscape
  processes : List ProcessEscape
  async_tasks : List AsyncTaskEscape
  goroutines : List GoroutineEscape
  other : List String
deriving DecidableEq, Repr

/-- `Default` for `EscapeDetails` (all five lists empty). -/
def EscapeDetails.default : EscapeDetails :=
  { threads := [], processes := [], async_tasks := [], goroutines := [], other := [] }

/-- `EscapeDetails::is_empty` (`src/protocol.rs:59-65`). -/
def EscapeDetails.is_empty (d : EscapeDetails) : Bool :=
  d.threads.isEmpty && d.processes.isEmpty && d.async_tasks.isEmpty
    && d.goroutines.isEmpty && d.other.isEmpty

/-- `protocol.rs` `ExecutionResult` (`execution_time_ms` as `Nat`). -/
structure ExecutionResult where
  input_data : String
  success : Bool
  crashed : Bool
  output : String
  error : String
  execution_time_ms : Nat
  escape_detected : Bool
  escape_details : EscapeDetails
deriving DecidableEq, Repr

/-- `protocol.rs` `Vulnerability`. -/
structure Vulnerability where
  input : String
  vulnerability_type : String
  severity : String
  description : String
  escape_details : EscapeDetails
deriving DecidableEq, Repr

/-- `protocol.rs` `ExecutionSummary`; the `f64` crash rate is modelled
exactly as a rational. -/
structure ExecutionSummary where
  total_tests : Nat
  successes : Nat
  crashes : Nat
  timeouts : Nat
  escapes : Nat
  genuine_escapes : Nat
  crash_rate : ℚ
deriving DecidableEq, Repr

/-- `protocol.rs` `AnalyzeResponse`. -/
structure AnalyzeResponse where
  session_id : String
  language : String
  analyzer_version : String
  analysis_mode : AnalysisMode
  results : List ExecutionResult
  vulnerabilities : List Vulnerability
  summary : ExecutionSummary
  static_analysis : Option StaticAnalysisResult
deriving DecidableEq, Repr

/-! ### C2: static summary bookkeeping -/

/-- High + Medium + Low counters of a summary. -/
def confSum (s : StaticEscapeSummary) : Nat :=
  s.high_confidence + s.medium_confidence + s.low_confidence

/-- The six per-kind counters of a summary. -/
def kindSum (s : StaticEscapeSummary) : Nat :=
  s.return_escapes + s.parameter_escapes + s.global_escapes + s.closure_escapes
    + s.heap_escapes + s.concurrency_escapes

/-! ### C10: mode composition (`src/orchestrator.rs:46-55` and `100-117`) -/

/-- The merge performed by `analyze_target` when a static response is
already present and the dynamic analysis also ran
(`src/orchestrator.rs:47-51`): overwrite `results`, extend
`vulnerabilities`, replace `summary`. -/
def merge_dynamic (resp dynamic_response : AnalyzeResponse) : AnalyzeResponse :=
  { resp with
    results := dynamic_response.results
    vulnerabilities := resp.vulnerabilities ++ dynamic_response.vulnerabilities
    summary := dynamic_response.summary }

/-- The zero summary used by `run_static_analysis`
(`src/orchestrator.rs:107-115`). -/
def staticZeroSummary : ExecutionSummary :=
  { total_tests := 0, successes := 0, crashes := 0, timeouts := 0, escapes := 0
    genuine_escapes := 0, crash_rate := 0 }

/-- The static-mode response template built by `run_static_analysis`
(`src/orchestrator.rs:100-117`); the generated session id is a parameter. -/
def run_static_analysis_response (session_id lang : String) (analysis_mode : AnalysisMode)
    (static_result : StaticAnalysisResult) : AnalyzeResponse :=
  { session_id := session_id, language := lang, analyzer_version := "1.0.0-static"
    analysis_mode := analysis_mode, results := [], vulnerabilities := []
    summary := staticZeroSummary, static_analysis := some static_result }

/-! ### C9: input generation (`src/orchestrator.rs:413-472`) -/

/-- The 41 seed inputs declared by `generate_inputs`
(`src/orchestrator.rs:414-457`), in declared order. -/
def seedInputs : List String :=
  [ "", "0", "-1", "1", "true", "false", "null", "undefined", "hello",
    "\\x00", "\\n", "\\t", "\x27", "\"", "()", "[]", "\x7b\x7d", "../", "..\\",
    "$\x7bHOME\x7d", "$(whoami)", "\x7b\x7b7*7\x7d\x7d", "%s", "error", "exception",
    "async", "await", "timeout", "deadlock", "race", "concurrent",
    "<script>alert(1)</script>", "\x27; DROP TABLE; --", "../../../etc/passwd",
    "\\x1b[31m", "\\u0000",
    strRepeat "A" 1024, strRepeat "1" 100, strRepeat "test" 50,
    strRepeat " " 1000, strRepeat "\\n" 100 ]

/-- The `while inputs.len() < count` padding loop of `generate_inputs`
(`src/orchestrator.rs:467-469`). -/
def padInputs (inputs : List String) (count : Nat) : List String :=
  if inputs.length < count then
    padInputs (inputs ++ ["input_" ++ toString (inputs.length + 1)]) count
  else inputs
termination_by count - inputs.length
decreasing_by simp only [List.length_append, List.length_cons, List.length_nil]; omega

/-- `generate_inputs` (`src/orchestrator.rs:413-472`). -/
def generate_inputs (count : Nat) : List String :=
  if count = 0 then [""]
  else if count ≤ seedInputs.length then seedInputs.take count
  else padInputs seedInputs count

/-! ### C3: analyzer registry file predicates (`src/analyzer/*.rs`) -/

/-- `PythonAnalyzer::can_handle` (`src/analyzer/python.rs:125-127`). -/
def pythonCanHandle (target : String) : Bool :=
  strEndsWith target ".py" || !(strContainsChar target '.')

/-- `JavaAnalyzer::can_handle` (`src/analyzer/java.rs:116-118`). -/
def javaCanHandle (target : String) : Bool :=
  strEndsWith target ".java" || strContainsSub target ".jar:"

/-- `NodeJsAnalyzer::can_handle` (`src/analyzer/nodejs.rs:114-116`). -/
def nodejsCanHandle (target : String) : Bool :=
  strEndsWith target ".js" || strEndsWith target ".mjs" || strEndsWith target ".cjs"

/-- `GoAnalyzer::can_handle` (`src/analyzer/go.rs:116-118`). -/
def goCanHandle (target : String) : Bool :=
  strEndsWith target ".go"

/-- `RustAnalyzer::can_handle` (`src/analyzer/rust.rs:99-101`). -/
def rustCanHandle (target : String) : Bool :=
  strEndsWith target ".rs" || strContainsSub target "::"

/-- How many of the five registered analyzer predicates accept `target`. -/
def acceptCount (target : String) : Nat :=
  ([pythonCanHandle target, javaCanHandle target, nodejsCanHandle target,
    goCanHandle target, rustCanHandle target].countP id)

/-! ### C4: orchestrator source-file resolution (`src/orchestrator.rs:179-210`) -/

/-- `resolve_source_file` (`src/orchestrator.rs:179-210`). Filesystem
existence (`PathBuf::exists`) is passed in as the predicate `ex`. The Rust
`replace('.', "/")` replaces each `'.'` character by `"/"`, i.e. a
character map. -/
def resolve_source_file (ex : String → Bool) (target : String) : String :=
  if strContainsChar target ':' then
    let parts := splitOnChar ':' target.data
    let file_or_module := String.mk (parts.headD [])
    if strContainsChar file_or_module '/' || strContainsChar file_or_module '\\'
        || strEndsWith file_or_module ".py" then
      file_or_module
    else
      let file_path :=
        String.mk (file_or_module.data.map (fun c => if c = '.' then '/' else c)) ++ ".py"
      if ex file_path then file_path
      else
        let test_path := "tests/" ++ file_path
        if ex test_path then test_path
        else file_path
  else target

/-- Modelled from the spec: the canonical extension of each language
(§4.4 "append the language's canonical extension" together with the
predicate table of §4.1); the source's `resolve_source_file` takes no
language argument at all. -/
def canonicalExtension : String → String
  | "python" => ".py"
  | "java" => ".java"
  | "javascript" => ".js"
  | "go" => ".go"
  | "rust" => ".rs"
  | _ => ""

namespace Bridge

/-- The three outcomes of the supervised invocation: `Ok(Ok(output))`,
`Ok(Err(panic))` and `Err(timeout)` of `rx.recv_timeout`
(`analyzers/rust-bridge/src/main.rs:146-159`). -/
inductive Outcome where
  | completed (output : String)
  | faulted
  | timedOut
deriving DecidableEq, Repr

/-- `true` exactly on the `TimedOut` outcome. -/
def Outcome.isTimedOut : Outcome → Bool
  | .timedOut => true
  | _ => false

/-- The environment observed by one `execute_test` call: invocation
outcome, baseline and post-invocation `available_parallelism` readings,
and elapsed milliseconds. -/
structure Obs where
  outcome : Outcome
  baseline : Nat
  current : Nat
  elapsedMs : Nat
deriving DecidableEq, Repr

/-- The error text of the panic branch: Rust's
`format!("Panic: {:?}", e)` with `e : Box<dyn Any + Send>` always prints
the payload as `Any { .. }` (std's `Debug` impl for `dyn Any`), so the
panic message itself is never interpolated. -/
def panicErrorText : String := "Panic: Any \x7b .. \x7d"

/-- `execute_test` (`analyzers/rust-bridge/src/main.rs:113-183`). -/
def execute_test (input : String) (ob : Obs) : ExecutionResult :=
  let base : ExecutionResult :=
    { input_data := input, success := false, crashed := false, output := "", error := ""
      execution_time_ms := ob.elapsedMs, escape_detected := false
      escape_details := EscapeDetails.default }
  let r :=
    match ob.outcome with
    | .completed out => { base with success := true, output := out }
    | .faulted => { base with crashed := true, error := panicErrorText }
    | .timedOut => { base with crashed := true, error := "Timeout exceeded" }
  if ob.current > ob.baseline then
    { r with
      escape_detected := true
      escape_details :=
        { r.escape_details with
          other := r.escape_details.other ++
            ["Thread count increased: " ++ toString ob.baseline ++ " -> "
              ++ toString ob.current] } }
  else r

/-- The bridge-side request (the fields `analyze` reads). -/
structure AnalyzeRequest where
  session_id : String
  target : String
  inputs : List String
  repeatCount : Nat
  timeout_seconds : ℚ
deriving DecidableEq, Repr

/-- The bridge-side response shape (`analyzers/rust-bridge/src/main.rs:21-31`). -/
structure BridgeResponse where
  session_id : String
  language : String
  analyzer_version : String
  results : List ExecutionResult
  vulnerabilities : List Vulnerability
  summary : ExecutionSummary
  error : Option String
deriving DecidableEq, Repr

/-- The placeholder top-level error the bridge always sets
(`analyzers/rust-bridge/src/main.rs:199-203`). -/
def loadErrorText : String :=
  "Rust dynamic function loading requires building target as dylib. This is a demonstration bridge showing the architecture."

/-- The vulnerability pushed for a result with a detected escape
(`analyzers/rust-bridge/src/main.rs:236-242`). -/
def mkVulnerability (input : String) (r : ExecutionResult) : Vulnerability :=
  { input := input, vulnerability_type := "concurrent_escape", severity := "high"
    description := "Rust concurrency escape detected", escape_details := r.escape_details }

/-- The mutable state threaded through `analyze`'s nested loops. -/
structure LoopSt where
  results : List ExecutionResult
  vulnerabilities : List Vulnerability
  successes : Nat
  crashes : Nat
  timeouts : Nat
  escapes : Nat
  genuine_escapes : Nat
deriving Repr

/-- The initial loop state of `analyze`. -/
def initSt : LoopSt := ⟨[], [], 0, 0, 0, 0, 0⟩

/-- One iteration of `analyze`'s inner loop
(`analyzers/rust-bridge/src/main.rs:218-247`): run the test, bump the
counters (`genuine_escapes` only when an escape was detected and the error
text does not contain `"Timeout"`), push a vulnerability on a detected
escape, append the result. -/
def stepExec (st : LoopSt) (input : String) (ob : Obs) : LoopSt :=
  let r := execute_test input ob
  { results := st.results ++ [r]
    vulnerabilities :=
      st.vulnerabilities ++ (if r.escape_detected then [mkVulnerability input r] else [])
    successes := st.successes + (if r.success then 1 else 0)
    crashes := st.crashes + (if r.crashed then 1 else 0)
    timeouts := st.timeouts + (if strContainsSub r.error "Timeout" then 1 else 0)
    escapes := st.escapes + (if r.escape_detected then 1 else 0)
    genuine_escapes := st.genuine_escapes +
      (if r.escape_detected && !(strContainsSub r.error "Timeout") then 1 else 0) }

/-- `analyze` (`analyzers/rust-bridge/src/main.rs:185-266`): outer loop
over the inputs, inner loop over `0..repeat`; the summary is assembled
from the final counters, with `crash_rate = crashes / total_tests` when
`total_tests > 0` and `0.0` otherwise. -/
def analyze (request : AnalyzeRequest) (obs : Nat → Nat → Obs) : BridgeResponse :=
  let st := request.inputs.enum.foldl
    (fun s p =>
      (List.range request.repeatCount).foldl (fun s2 j => stepExec s2 p.2 (obs p.1 j)) s)
    initSt
  let total_tests := st.results.length
  { session_id := request.session_id, language := "rust", analyzer_version := "1.0.0"
    results := st.results, vulnerabilities := st.vulnerabilities
    summary :=
      { total_tests := total_tests, successes := st.successes, crashes := st.crashes
        timeouts := st.timeouts, escapes := st.escapes, genuine_escapes := st.genuine_escapes
        crash_rate :=
          if total_tests > 0 then (st.crashes : ℚ) / (total_tests : ℚ) else 0 }
    error := some loadErrorText }

/-- The `(input, observation)` pairs of a session in execution order:
input index outer, repeat index fastest. -/
def execsOf (inputs : List String) (rep : Nat) (obs : Nat → Nat → Obs) :
    List (String × Obs) :=
  (inputs.enum.map (fun p => (List.range rep).map (fun j => (p.2, obs p.1 j)))).flatten

/-- The mapped-out execution results of a session. -/
def resultsOf (request : AnalyzeRequest) (obs : Nat → Nat → Obs) :
    List ExecutionResult :=
  (execsOf request.inputs request.repeatCount obs).map (fun pr => execute_test pr.1 pr.2)

end Bridge

namespace RustStatic

/-- The identifier-collection loop shared by `extract_fn_name` and
`sanitize_ident`: take chars while alphanumeric or underscore. -/
def takeIdent (l : List Char) : List Char := l.takeWhile identChar

/-- `extract_fn_name` (`rust.rs:189-201`). -/
def extract_fn_name (line : List Char) : Option String :=
  match afterSub line ("fn ".data) with
  | none => none
  | some after_fn =>
    let name := takeIdent after_fn
    if name.isEmpty then none else some (String.mk name)

/-- `sanitize_ident` (`rust.rs:248-258`). -/
def sanitize_ident (value : List Char) : Option String :=
  let ident := takeIdent value
  if ident.isEmpty then none else some (String.mk ident)

/-- `count_braces` (`rust.rs:360-370`). -/
def count_braces (line : List Char) : Int :=
  line.foldl
    (fun count ch => if ch = lbrace then count + 1 else if ch = rbrace then count - 1 else count)
    0

/-- Rust `str::strip_prefix`. -/
def stripPfx (pat l : List Char) : Option (List Char) :=
  if pat.isPrefixOf l then some (l.drop pat.length) else none

/-- `extract_params` (`rust.rs:203-233`): the arguments between the first
`'('` and the following `')'`, split on `','`; each is trimmed, `self`
receivers collapse to `"self"`, a type annotation after `':'` is cut,
leading `'&'`s and one `"mut "` are stripped. -/
def extract_params (signature : List Char) : List String :=
  match afterSub signature ['('] with
  | none => []
  | some rest =>
    match findSubIdx rest [')'] with
    | none => []
    | some cidx =>
      let args := rest.take cidx
      (splitOnChar ',' args).foldl
        (fun params arg =>
          let arg := trimList arg
          if arg.isEmpty then params
          else if ("self".data.isPrefixOf arg) || ("&self".data.isPrefixOf arg)
              || ("&mut self".data.isPrefixOf arg) then
            listInsert params "self"
          else
            let arg := arg.takeWhile (fun c => c != ':')
            let arg := trimList arg
            let arg := arg.dropWhile (fun c => c = '&')
            let arg := trimList arg
            let arg := (stripPfx ("mut ".data) arg).getD arg
            let arg := trimList arg
            match sanitize_ident arg with
            | some name => listInsert params name
            | none => params)
        []

/-- `extract_let_binding` (`rust.rs:235-246`). -/
def extract_let_binding (line : List Char) : Option String :=
  match afterSub line ("let ".data) with
  | none => none
  | some remainder =>
    let remainder := trimLeftList remainder
    if ['('].isPrefixOf remainder then none
    else
      let remainder :=
        match stripPfx ("mut ".data) remainder with
        | some rest => trimLeftList rest
        | none => remainder
      sanitize_ident remainder

/-- `detect_return_escape` (`rust.rs:260-287`). -/
def detect_return_escape (line : List Char) (source_file : String) (line_number : Nat)
    (function_name : String) (locals : List String) : Option StaticEscape :=
  match findSubIdx line ("return ".data) with
  | none => none
  | some return_idx =>
    let remainder := trimList (line.drop (return_idx + 7))
    match sanitize_ident remainder with
    | none => none
    | some name =>
      if name ∈ locals then
        some
          { escape_type := EscapeType.ReturnEscape
            location :=
              { file := source_file, line := line_number, column := return_idx
                function := function_name
                code_snippet := some (String.mk (trimList line)) }
            variable_name := name
            reason := "Variable \x27" ++ name ++ "\x27 returned from function"
            confidence := ConfidenceLevel.High
            data_flow := [] }
      else none

/-- The heap-allocation patterns of `detect_heap_escape` (`rust.rs:295-303`). -/
def heapPatterns : List String :=
  ["Box::new", "Vec::new", "String::new", "Arc::new", "Rc::new", "HashMap::new", "HashSet::new"]

/-- `detect_heap_escape` (`rust.rs:289-323`). -/
def detect_heap_escape (line : List Char) (source_file : String) (line_number : Nat)
    (function_name : String) : Option StaticEscape :=
  if !(heapPatterns.any (fun p => containsSub line p.data)) then none
  else
    let var := (extract_let_binding line).getD "<unknown>"
    let column := (findSubIdx line var.data).getD 0
    some
      { escape_type := EscapeType.HeapEscape
        location :=
          { file := source_file, line := line_number, column := column
            function := function_name, code_snippet := some (String.mk (trimList line)) }
        variable_name := var
        reason := "Heap-allocated structure assigned to local variable"
        confidence := ConfidenceLevel.Medium
        data_flow := [] }

/-- The spawn patterns (with reasons) of `detect_concurrency`
(`rust.rs:331-337`). -/
def concurrencyPatterns : List (String × String) :=
  [("std::thread::spawn", "Thread spawn"), ("thread::spawn", "Thread spawn"),
   ("tokio::spawn", "Async task spawn"), ("tokio::task::spawn", "Async task spawn"),
   ("std::thread::Builder", "Thread builder")]

/-- `detect_concurrency` (`rust.rs:325-358`); only reachable from
whole-file analysis (`analyze_file`), not from `analyze_function`. -/
def detect_concurrency (line : List Char) (source_file : String) (line_number : Nat)
    (function_name : String) : Option StaticEscape :=
  match concurrencyPatterns.find? (fun p => containsSub line p.1.data) with
  | none => none
  | some p =>
    some
      { escape_type := EscapeType.ConcurrencyEscape
        location :=
          { file := source_file, line := line_number
            column := (findSubIdx line p.1.data).getD 0
            function := function_name, code_snippet := some (String.mk (trimList line)) }
        variable_name := p.1
        reason := p.2 ++ " may leak work beyond scope"
        confidence := ConfidenceLevel.High
        data_flow := [] }

/-- The spawn patterns of `is_thread_creation` (`rust.rs:373-379`). -/
def threadPatterns : List String :=
  ["thread::spawn", "std::thread::spawn", "tokio::spawn", "tokio::task::spawn", "thread::Builder"]

/-- `is_thread_creation` (`rust.rs:372-381`). -/
def is_thread_creation (line : List Char) : Bool :=
  threadPatterns.any (fun p => containsSub line p.data)

/-- `extract_join_call` (`rust.rs:383-404`): on a line containing
`".join()"` or `".await"`, the last identifier run before the first `'.'`. -/
def extract_join_call (line : List Char) : Option String :=
  if containsSub line (".join()".data) || containsSub line (".await".data) then
    match findSubIdx line ['.'] with
    | none => none
    | some dot_idx =>
      let before_dot := line.take dot_idx
      let var_name :=
        ((before_dot.reverse.dropWhile (fun c => !(identChar c))).takeWhile identChar).reverse
      if var_name.isEmpty then none else some (String.mk var_name)
  else none

/-- The scanning loop of `find_variable_line` (`rust.rs:406-430`). -/
def find_variable_line_go (function_name var_name : String) :
    List (List Char) → Nat → Bool → Int → Option Nat
  | [], _, _, _ => none
  | line :: rest, idx, in_target, brace_depth =>
    if !in_target then
      match extract_fn_name line with
      | some name =>
        if name = function_name then
          find_variable_line_go function_name var_name rest (idx + 1) true (count_braces line)
        else find_variable_line_go function_name var_name rest (idx + 1) false brace_depth
      | none => find_variable_line_go function_name var_name rest (idx + 1) false brace_depth
    else
      if containsSub line (("let " ++ var_name).data)
          || containsSub line (("let mut " ++ var_name).data) then
        some (idx + 1)
      else
        let brace' := brace_depth + count_braces line
        if brace' ≤ 0 then none
        else find_variable_line_go function_name var_name rest (idx + 1) true brace'

/-- `find_variable_line` (`rust.rs:406-430`). -/
def find_variable_line (source : List (List Char)) (function_name var_name : String) :
    Option Nat :=
  find_variable_line_go function_name var_name source 0 false 0

/-- The signature-accumulation inner `while` of `analyze_function`
(`rust.rs:112-116`): extend the signature with following lines until it
contains `'{'` or the file ends; returns the signature and the index of
its last line.  The loop advances `i` by one per iteration and stops once
`i + 1 = lines.length`, so a fuel of `lines.length` (as passed by
`af_loop`) can never be exhausted before the loop condition fails. -/
def accumSig (lines : List (List Char)) : Nat → Nat → List Char → List Char × Nat
  | 0, i, sig => (sig, i)
  | fuel + 1, i, sig =>
    if containsSub sig [lbrace] = false ∧ i + 1 < lines.length then
      accumSig lines fuel (i + 1) (sig ++ '\n' :: lines.getD (i + 1) [])
    else (sig, i)

/-- The mutable state of `analyze_function`'s scanning loop
(`rust.rs:95-102`). -/
structure FnSt where
  escapes : List StaticEscape
  locals : List String
  thread_handles : List String
  joined_handles : List String
  found_function : Bool
deriving Repr

/-- The body of one in-target iteration of `analyze_function`'s loop
(`rust.rs:122-146`): record a `let` binding (and a spawn handle when the
line creates a thread/task), record a `.join()`/`.await` handle, then push
a return escape (against the locals including this line's binding, as in
the source) and a heap escape when detected. -/
def bodyStep (line : List Char) (source_file : String) (line_number : Nat)
    (function_name : String) (st : FnSt) : FnSt :=
  let locals' :=
    match extract_let_binding line with
    | some localName => listInsert st.locals localName
    | none => st.locals
  let handles' :=
    match extract_let_binding line with
    | some localName =>
      if is_thread_creation line then listInsert st.thread_handles localName
      else st.thread_handles
    | none => st.thread_handles
  let joined' :=
    match extract_join_call line with
    | some handle => listInsert st.joined_handles handle
    | none => st.joined_handles
  let esc1 :=
    match detect_return_escape line source_file line_number function_name locals' with
    | some e => st.escapes ++ [e]
    | none => st.escapes
  let esc2 :=
    match detect_heap_escape line source_file line_number function_name with
    | some e => esc1 ++ [e]
    | none => esc1
  { escapes := esc2, locals := locals', thread_handles := handles'
    joined_handles := joined', found_function := st.found_function }

/-- The `while i < lines.len()` loop of `analyze_function`
(`rust.rs:104-154`).  The index `i` strictly increases at every iteration
(`accumSig` never moves it backwards) and the loop exits as soon as
`i ≥ lines.length`, so with the fuel `lines.length` supplied by
`analyze_function` the fuel can never run out before the loop condition
fails: the fuel-0 result `st` coincides with the loop's. -/
def af_loop (lines : List (List Char)) (source_file function_name : String) :
    Nat → Nat → Bool → Int → FnSt → FnSt
  | 0, _, _, _, st => st
  | fuel + 1, i, in_target, brace_depth, st =>
    if i < lines.length then
      let line := lines.getD i []
      if !in_target then
        match extract_fn_name line with
        | some name =>
          if name = function_name then
            let si := accumSig lines lines.length i line
            let st' := { st with
              found_function := true
              locals := (extract_params si.1).foldl listInsert st.locals }
            af_loop lines source_file function_name fuel (si.2 + 1)
              (count_braces si.1 > 0) (count_braces si.1) st'
          else af_loop lines source_file function_name fuel (i + 1) in_target brace_depth st
        | none => af_loop lines source_file function_name fuel (i + 1) in_target brace_depth st
      else
        let st' := bodyStep line source_file (i + 1) function_name st
        let brace' := brace_depth + count_braces line
        if brace' ≤ 0 then st'
        else af_loop lines source_file function_name fuel (i + 1) true brace' st'
    else st

/-- The unjoined-handle escape pushed after the loop (`rust.rs:156-177`). -/
def handleEscape (source : List (List Char)) (source_file function_name : String)
    (handle : String) : Option StaticEscape :=
  match find_variable_line source function_name handle with
  | some line_num =>
    some
      { escape_type := EscapeType.ConcurrencyEscape
        location :=
          { file := source_file, line := line_num, column := 0
            function := function_name, code_snippet := none }
        variable_name := handle
        reason := "Thread/task handle \x27" ++ handle ++ "\x27 created but not joined"
        confidence := ConfidenceLevel.High
        data_flow := [] }
  | none => none

/-- `analyze_function` (`rust.rs:88-187`), returning the escapes and the
warnings it pushes. -/
def analyze_function (source : List String) (source_file function_name : String) :
    List StaticEscape × List String :=
  let lines := source.map String.data
  let st := af_loop lines source_file function_name lines.length 0 false 0 ⟨[], [], [], [], false⟩
  let handle_escapes := st.thread_handles.filterMap
    (fun handle =>
      if handle ∈ st.joined_handles then none
      else handleEscape lines source_file function_name handle)
  let warnings :=
    if !st.found_function then
      ["Target function \x27" ++ function_name ++ "\x27 not found in source file"]
    else []
  (st.escapes ++ handle_escapes, warnings)

/-- `analyze_file` (`rust.rs:78-86`). -/
def analyze_file (source : List String) (source_file : String) : List StaticEscape :=
  source.enum.filterMap
    (fun p => detect_concurrency p.2.data source_file (p.1 + 1) "<module>")

/-- `parse_target_function` (`rust.rs:67-76`). -/
def parse_target_function (target : String) : Option String :=
  let parts := splitOnChar ':' target.data
  if parts.length = 2 then
    let fn_part := trimList (parts.getD 1 [])
    if fn_part.isEmpty then none else some (String.mk fn_part)
  else none

/-- `RustStaticAnalyzer::analyze` (`rust.rs:22-53`): the file content is
passed as its list of lines; `analysis_time_ms` (wall clock) is modelled
as 0. -/
def rustAnalyze (target : String) (source : List String) (source_file : String) :
    StaticAnalysisResult :=
  let target_function := parse_target_function target
  let er :=
    match target_function with
    | some function_name => analyze_function source source_file function_name
    | none => (analyze_file source source_file, [])
  let warnings := er.2 ++
    (if target_function.isSome && er.1.isEmpty then
      ["No Rust escapes detected by heuristic analyzer"]
    else [])
  { target := target, source_file := source_file, escapes := er.1
    analysis_time_ms := 0, warnings := warnings
    summary := er.1.foldl StaticEscapeSummary.add_escape StaticEscapeSummary.new }

/-- The body of `spawn_detached_thread` exactly as in
`tests/rust/escape_threads.rs:7-13`: a bare `thread::spawn(...)` statement
not bound to any `let` handle. -/
def bareSpawnSrc : List String :=
  [ "pub fn spawn_detached_thread(input: String) -> String \x7b",
    "    thread::spawn(move || \x7b",
    "        thread::sleep(Duration::from_secs(10));",
    "        println!(\"Thread completed: \x7b\x7d\", input);",
    "    \x7d);",
    "    \"ok\".to_string()",
    "\x7d" ]

/-- The full content of `tests/rust/advanced_escapes.rs` (the file named
by the claim's end-to-end scenario), line by line.  It contains no
function named `spawn_detached_thread`. -/
def advancedEscapesSrc : List String :=
  [ "// Rust concurrency escape examples - Advanced patterns",
    "",
    "use std::thread;",
    "use std::time::Duration;",
    "use std::sync::\x7bArc, Mutex\x7d;",
    "use tokio::time::sleep;",
    "use tokio::task;",
    "",
    "// === Obfuscated Thread Escapes ===",
    "",
    "fn create_worker_factory() -> impl Fn() \x7b",
    "    || \x7b",
    "        thread::spawn(|| \x7b",
    "            thread::sleep(Duration::from_secs(2));",
    "        \x7d);",
    "    \x7d",
    "\x7d",
    "",
    "pub fn spawn_via_factory(_input: String) -> String \x7b",
    "    let factory = create_worker_factory();",
    "    factory();",
    "    \"ok\".to_string()",
    "\x7d",
    "",
    "pub fn spawn_via_closure(_input: String) -> String \x7b",
    "    let spawner = || \x7b",
    "        thread::spawn(|| \x7b",
    "            thread::sleep(Duration::from_secs(2));",
    "        \x7d);",
    "    \x7d;",
    "    spawner();",
    "    \"ok\".to_string()",
    "\x7d",
    "",
    "// === Dynamic Storage ===",
    "",
    "pub fn spawn_to_vec(_input: String) -> String \x7b",
    "    let mut threads = Vec::new();",
    "    ",
    "    for _ in 0..3 \x7b",
    "        let t = thread::spawn(|| \x7b",
    "            thread::sleep(Duration::from_secs(2));",
    "        \x7d);",
    "        threads.push(t);",
    "    \x7d",
    "    ",
    "    // threads dropped without joining",
    "    \"ok\".to_string()",
    "\x7d",
    "",
    "pub fn spawn_to_vec_drop_explicit(_input: String) -> String \x7b",
    "    let mut threads = Vec::new();",
    "    ",
    "    for _ in 0..3 \x7b",
    "        let t = thread::spawn(|| \x7b",
    "            thread::sleep(Duration::from_secs(2));",
    "        \x7d);",
    "        threads.push(t);",
    "    \x7d",
    "    ",
    "    // Explicitly drop without join",
    "    drop(threads);",
    "    \"ok\".to_string()",
    "\x7d",
    "",
    "// === Conditional Escapes ===",
    "",
    "pub fn spawn_conditionally(_input: String) -> String \x7b",
    "    if _input.len() > 3 \x7b",
    "        thread::spawn(|| \x7b",
    "            thread::sleep(Duration::from_secs(2));",
    "        \x7d);",
    "    \x7d",
    "    \"ok\".to_string()",
    "\x7d",
    "",
    "pub fn spawn_in_error_path(_input: String) -> String \x7b",
    "    match _input.parse::<i32>() \x7b",
    "        Ok(_) => \"ok\".to_string(),",
    "        Err(_) => \x7b",
    "            thread::spawn(|| \x7b",
    "                thread::sleep(Duration::from_secs(2));",
    "            \x7d);",
    "            \"ok\".to_string()",
    "        \x7d",
    "    \x7d",
    "\x7d",
    "",
    "// === Shared State Escapes ===",
    "",
    "pub fn spawn_with_shared_data(_input: String) -> String \x7b",
    "    let data = Arc::new(Mutex::new(vec![_input]));",
    "    ",
    "    for _ in 0..3 \x7b",
    "        let data = Arc::clone(&data);",
    "        thread::spawn(move || \x7b",
    "            thread::sleep(Duration::from_millis(100));",
    "            let mut d = data.lock().unwrap();",
    "            d.push(\"leaked\".to_string());",
    "        \x7d);",
    "    \x7d",
    "    ",
    "    // Arc clones released but threads still running",
    "    \"ok\".to_string()",
    "\x7d",
    "",
    "pub fn spawn_with_string_clone(_input: String) -> String \x7b",
    "    for _ in 0..3 \x7b",
    "        let input = _input.clone();",
    "        thread::spawn(move || \x7b",
    "            thread::sleep(Duration::from_secs(2));",
    "            println!(\"Thread: \x7b\x7d\", input);",
    "        \x7d);",
    "    \x7d",
    "    \"ok\".to_string()",
    "\x7d",
    "",
    "// === Partial Joins ===",
    "",
    "pub fn spawn_join_only_first(_input: String) -> String \x7b",
    "    let mut threads = vec![];",
    "    ",
    "    for _ in 0..3 \x7b",
    "        threads.push(thread::spawn(|| \x7b",
    "            thread::sleep(Duration::from_secs(2));",
    "        \x7d));",
    "    \x7d",
    "    ",
    "    if let Some(t) = threads.first() \x7b",
    "        let _result = t.join();",
    "    \x7d",
    "    ",
    "    // Rest dropped without join",
    "    \"ok\".to_string()",
    "\x7d",
    "",
    "pub fn spawn_collect_join_incomplete(_input: String) -> String \x7b",
    "    let handles: Vec<_> = (0..5)",
    "        .map(|i| \x7b",
    "            thread::spawn(move || \x7b",
    "                thread::sleep(Duration::from_secs(2));",
    "                i",
    "            \x7d)",
    "        \x7d)",
    "        .collect();",
    "    ",
    "    // Only join first 2",
    "    for handle in handles.iter().take(2) \x7b",
    "        let _ = handle.join();",
    "    \x7d",
    "    ",
    "    \"ok\".to_string()",
    "\x7d",
    "",
    "// === Recursive Threads ===",
    "",
    "pub fn spawn_threads_recursive(_input: String, depth: usize) -> String \x7b",
    "    if depth == 0 \x7b",
    "        return \"ok\".to_string();",
    "    \x7d",
    "    ",
    "    thread::spawn(move || \x7b",
    "        thread::sleep(Duration::from_millis(100));",
    "        spawn_threads_recursive(_input.clone(), depth - 1);",
    "    \x7d);",
    "    ",
    "    \"ok\".to_string()",
    "\x7d",
    "",
    "// === Async Task Escapes ===",
    "",
    "pub async fn spawn_task_no_await(_input: String) -> String \x7b",
    "    task::spawn(async \x7b",
    "        sleep(Duration::from_secs(10)).await;",
    "    \x7d);",
    "    \"ok\".to_string()",
    "\x7d",
    "",
    "pub async fn spawn_multiple_tasks_no_join(_input: String) -> String \x7b",
    "    for _ in 0..5 \x7b",
    "        task::spawn(async \x7b",
    "            sleep(Duration::from_secs(2)).await;",
    "        \x7d);",
    "    \x7d",
    "    \"ok\".to_string()",
    "\x7d",
    "",
    "pub async fn spawn_tasks_in_loop_no_collect(_input: String) -> String \x7b",
    "    for i in 0..3 \x7b",
    "        task::spawn(async move \x7b",
    "            sleep(Duration::from_secs(2)).await;",
    "            println!(\"Task \x7b\x7d\", i);",
    "        \x7d);",
    "    \x7d",
    "    \"ok\".to_string()",
    "\x7d",
    "",
    "// === Panic/Error Path Escapes ===",
    "",
    "pub fn spawn_with_panic_risk(_input: String) -> String \x7b",
    "    let handles: Vec<_> = (0..3)",
    "        .map(|_| \x7b",
    "            thread::spawn(|| \x7b",
    "                thread::sleep(Duration::from_secs(2));",
    "            \x7d)",
    "        \x7d)",
    "        .collect();",
    "    ",
    "    if _input == \"panic\" \x7b",
    "        panic!(\"User triggered panic - threads leak\");",
    "    \x7d",
    "    ",
    "    // Normal path drops handles without join",
    "    \"ok\".to_string()",
    "\x7d",
    "",
    "// === Builder Pattern Escapes ===",
    "",
    "pub fn spawn_with_builder(_input: String) -> String \x7b",
    "    thread::Builder::new()",
    "        .name(format!(\"worker-\x7b\x7d\", _input))",
    "        .spawn(|| \x7b",
    "            thread::sleep(Duration::from_secs(2));",
    "        \x7d)",
    "        .expect(\"Failed to spawn\");",
    "    ",
    "    \"ok\".to_string()",
    "\x7d",
    "",
    "// === Properly Cleaned Up (False Negatives) ===",
    "",
    "pub fn thread_properly_joined(_input: String) -> String \x7b",
    "    let handle = thread::spawn(|| \x7b",
    "        thread::sleep(Duration::from_millis(50));",
    "        42",
    "    \x7d);",
    "    ",
    "    let _result = handle.join();",
    "    \"ok\".to_string()",
    "\x7d",
    "",
    "pub fn threads_collected_and_joined(_input: String) -> String \x7b",
    "    let handles: Vec<_> = (0..3)",
    "        .map(|i| \x7b",
    "            thread::spawn(move || \x7b",
    "                thread::sleep(Duration::from_millis(50));",
    "                i",
    "            \x7d)",
    "        \x7d)",
    "        .collect();",
    "    ",
    "    for handle in handles \x7b",
    "        let _ = handle.join();",
    "    \x7d",
    "    \"ok\".to_string()",
    "\x7d",
    "",
    "pub async fn task_properly_awaited(_input: String) -> String \x7b",
    "    let handle = task::spawn(async \x7b",
    "        sleep(Duration::from_millis(50)).await;",
    "        \"done\"",
    "    \x7d);",
    "    ",
    "    let _ = handle.await;",
    "    \"ok\".to_string()",
    "\x7d",
    "",
    "pub async fn tasks_properly_collected(_input: String) -> String \x7b",
    "    let handles: Vec<_> = (0..3)",
    "        .map(|i| \x7b",
    "            task::spawn(async move \x7b",
    "                sleep(Duration::from_millis(50)).await;",
    "                i",
    "            \x7d)",
    "        \x7d)",
    "        .collect();",
    "    ",
    "    for handle in handles \x7b",
    "        let _ = handle.await;",
    "    \x7d",
    "    \"ok\".to_string()",
    "\x7d",
    "",
    "pub fn thread_scope_safe(_input: String) -> String \x7b",
    "    // Rust\x27s scoped threads are safe - they must join before scope ends",
    "    thread::scope(|s| \x7b",
    "        for i in 0..3 \x7b",
    "            s.spawn(move |_| \x7b",
    "                thread::sleep(Duration::from_millis(50));",
    "                println!(\"Scoped thread \x7b\x7d\", i);",
    "            \x7d);",
    "        \x7d",
    "        // Scope blocks until all threads join",
    "    \x7d);",
    "    \"ok\".to_string()",
    "\x7d",
    "" ]

/-- A function body binding a spawn to a `let` handle that is never
joined or awaited. -/
def letSpawnSrc : List String :=
  [ "pub fn spawn_unjoined(input: String) -> String \x7b",
    "    let h = thread::spawn(move || \x7b \x7d);",
    "    \"ok\".to_string()",
    "\x7d" ]

/-- A throwaway default escape for indexing into a computed escape list. -/
def probeEscape : StaticEscape :=
  { escape_type := EscapeType.UnknownEscape
    location := { file := "", line := 0, column := 0, function := "", code_snippet := none }
    variable_name := "", reason := "", confidence := ConfidenceLevel.Low, data_flow := [] }

end RustStatic

/-! ### Theorems -/

theorem add_escape_total (s : StaticEscapeSummary) (e : StaticEscape) :
    (s.add_escape e).total_escapes = s.total_escapes + 1 := by
  unfold StaticEscapeSummary.add_escape
  cases e.escape_type <;> cases e.confidence <;> rfl

theorem add_escape_confSum (s : StaticEscapeSummary) (e : StaticEscape) :
    confSum (s.add_escape e) = confSum s + 1 := by
  unfold StaticEscapeSummary.add_escape confSum
  cases e.escape_type <;> cases e.confidence <;> simp <;> omega

theorem add_escape_kindSum (s : StaticEscapeSummary) (e : StaticEscape) :
    kindSum (s.add_escape e)
      = kindSum s + (if e.escape_type = EscapeType.UnknownEscape then 0 else 1) := by
  unfold StaticEscapeSummary.add_escape kindSum
  cases e.escape_type <;> cases e.confidence <;> simp <;> omega

theorem foldl_add_escape_total (l : List StaticEscape) :
    ∀ s : StaticEscapeSummary,
      (l.foldl StaticEscapeSummary.add_escape s).total_escapes = s.total_escapes + l.length := by
  induction l with
  | nil => intro s; simp
  | cons e t ih =>
    intro s
    simp only [List.foldl_cons, ih, add_escape_total, List.length_cons]
    omega

theorem foldl_add_escape_confSum (l : List StaticEscape) :
    ∀ s : StaticEscapeSummary,
      confSum (l.foldl StaticEscapeSummary.add_escape s) = confSum s + l.length := by
  induction l with
  | nil => intro s; simp
  | cons e t ih =>
    intro s
    simp only [List.foldl_cons, ih, add_escape_confSum, List.length_cons]
    omega

theorem foldl_add_escape_kindSum (l : List StaticEscape) :
    ∀ s : StaticEscapeSummary,
      kindSum (l.foldl StaticEscapeSummary.add_escape s)
        = kindSum s + l.countP (fun e => !(e.escape_type = EscapeType.UnknownEscape : Bool)) := by
  induction l with
  | nil => intro s; simp
  | cons e t ih =>
    intro s
    simp only [List.foldl_cons, ih, add_escape_kindSum, List.countP_cons]
    by_cases h : e.escape_type = EscapeType.UnknownEscape <;> simp [h] <;> omega

theorem countP_unknown_split (l : List StaticEscape) :
    l.countP (fun e => !(e.escape_type = EscapeType.UnknownEscape : Bool))
        + l.countP (fun e => e.escape_type = EscapeType.UnknownEscape)
      = l.length := by
  induction l with
  | nil => simp
  | cons e t ih =>
    simp only [List.countP_cons, List.length_cons]
    by_cases h : e.escape_type = EscapeType.UnknownEscape <;> simp [h] <;> omega

/-- C2. Any `StaticAnalysisResult` summary built by folding
`StaticEscapeSummary::add_escape` from `new` over the escape list satisfies:
`total_escapes = len(escapes)`, the three confidence counters sum to
`total_escapes`, and the six per-kind counters sum to `total_escapes` minus
the number of `UnknownEscape`s. -/
theorem c2_static_summary_sums (escapes : List StaticEscape) :
    (escapes.foldl StaticEscapeSummary.add_escape StaticEscapeSummary.new).total_escapes
        = escapes.length
    ∧ confSum (escapes.foldl StaticEscapeSummary.add_escape StaticEscapeSummary.new)
        = (escapes.foldl StaticEscapeSummary.add_escape StaticEscapeSummary.new).total_escapes
    ∧ kindSum (escapes.foldl StaticEscapeSummary.add_escape StaticEscapeSummary.new)
        = (escapes.foldl StaticEscapeSummary.add_escape StaticEscapeSummary.new).total_escapes
          - escapes.countP (fun e => e.escape_type = EscapeType.UnknownEscape) := by
  have htot := foldl_add_escape_total escapes StaticEscapeSummary.new
  have hconf := foldl_add_escape_confSum escapes StaticEscapeSummary.new
  have hkind := foldl_add_escape_kindSum escapes StaticEscapeSummary.new
  have hsplit := countP_unknown_split escapes
  refine ⟨?_, ?_, ?_⟩
  · simpa [StaticEscapeSummary.new] using htot
  · rw [hconf, htot]; simp [confSum, StaticEscapeSummary.new]
  · rw [hkind, htot]
    simp only [kindSum, StaticEscapeSummary.new] at *
    omega

/-- C10. In `Both` mode with both analyses succeeding, the combined response
is the static response with exactly three changes — `results` overwritten by
the dynamic results, `vulnerabilities` extended with the dynamic
vulnerabilities, `summary` replaced by the dynamic summary — while
`session_id`, `language`, `analyzer_version`, `analysis_mode` and the
populated `static_analysis` are unchanged. -/
theorem c10_merge_frame (s d : AnalyzeResponse) :
    (merge_dynamic s d).results = d.results
    ∧ (merge_dynamic s d).vulnerabilities = s.vulnerabilities ++ d.vulnerabilities
    ∧ (merge_dynamic s d).summary = d.summary
    ∧ (merge_dynamic s d).session_id = s.session_id
    ∧ (merge_dynamic s d).language = s.language
    ∧ (merge_dynamic s d).analyzer_version = s.analyzer_version
    ∧ (merge_dynamic s d).analysis_mode = s.analysis_mode
    ∧ (merge_dynamic s d).static_analysis = s.static_analysis
    ∧ ∀ sid lang mode r,
        (merge_dynamic (run_static_analysis_response sid lang mode r) d).static_analysis
          = some r := by
  refine ⟨rfl, rfl, rfl, rfl, rfl, rfl, rfl, rfl, fun sid lang mode r => rfl⟩

theorem inputTag_congr {a b : Nat} (h : a = b) :
    "input_" ++ toString a = "input_" ++ toString b := by rw [h]

theorem padInputs_spec (k : Nat) :
    ∀ l : List String,
      padInputs l (l.length + k)
        = l ++ (List.range k).map (fun j => "input_" ++ toString (l.length + j + 1)) := by
  induction k with
  | zero => intro l; rw [padInputs]; simp
  | succ k ih =>
    intro l
    rw [padInputs, if_pos (by omega)]
    have harg : l.length + (k + 1) = (l ++ ["input_" ++ toString (l.length + 1)]).length + k := by
      simp only [List.length_append, List.length_cons, List.length_nil]; omega
    rw [harg, ih]
    rw [List.range_succ_eq_map, List.map_cons, List.map_map]
    simp only [List.length_append, List.length_cons, List.length_nil, List.append_assoc,
      List.singleton_append, Function.comp]
    refine congrArg (fun t => l ++ t) ?_
    refine congrArg₂ List.cons (inputTag_congr (by omega)) ?_
    refine List.map_congr_left fun j hj => inputTag_congr (by omega)

/-- C9. `generate_inputs` is a deterministic function of the requested
count: count 0 yields exactly `[""]`; `1 ≤ n ≤ 41` yields the first `n`
seeds in declared order; `n > 41` yields the full seed list followed by
`"input_{k}"` for `k = 42, …, n`; the result always has length
`max n 1`. -/
theorem c9_generate_inputs :
    generate_inputs 0 = [""]
    ∧ (∀ n, 1 ≤ n → n ≤ seedInputs.length → generate_inputs n = seedInputs.take n)
    ∧ (∀ n, seedInputs.length < n →
        generate_inputs n
          = seedInputs ++ (List.range (n - seedInputs.length)).map
              (fun j => "input_" ++ toString (seedInputs.length + j + 1)))
    ∧ (∀ n, (generate_inputs n).length = max n 1) := by
  have hlen : seedInputs.length = 41 := by decide
  have h0 : generate_inputs 0 = [""] := by rfl
  have htake : ∀ n, 1 ≤ n → n ≤ seedInputs.length → generate_inputs n = seedInputs.take n := by
    intro n h1 h2
    unfold generate_inputs
    rw [if_neg (by omega), if_pos h2]
  have hpad : ∀ n, seedInputs.length < n →
      generate_inputs n
        = seedInputs ++ (List.range (n - seedInputs.length)).map
            (fun j => "input_" ++ toString (seedInputs.length + j + 1)) := by
    intro n hgt
    unfold generate_inputs
    rw [if_neg (by omega), if_neg (by omega)]
    have harg : n = seedInputs.length + (n - seedInputs.length) := by omega
    conv_lhs => rw [harg]
    exact padInputs_spec (n - seedInputs.length) seedInputs
  refine ⟨h0, htake, hpad, ?_⟩
  intro n
  rcases Nat.eq_zero_or_pos n with h | h
  · subst h; rw [h0]; rfl
  by_cases h2 : n ≤ seedInputs.length
  · rw [htake n h h2]
    simp only [List.length_take]
    omega
  · rw [hpad n (by omega)]
    simp only [List.length_append, List.length_map, List.length_range]
    omega

/-- Witness for C9 at concrete counts: count 3 yields the first three
seeds, and count 0 yields the singleton empty string. -/
theorem c9_witness :
    generate_inputs 3 = seedInputs.take 3 ∧ generate_inputs 0 = [""] :=
  ⟨c9_generate_inputs.2.1 3 (by decide) (by decide), c9_generate_inputs.1⟩

theorem ends_mutex {t : String} (a b : String) (hab : ¬ a.data <:+ b.data)
    (hba : ¬ b.data <:+ a.data) (ha : strEndsWith t a = true) :
    strEndsWith t b = false := by
  unfold strEndsWith at ha ⊢
  rw [List.isSuffixOf_iff_suffix] at ha
  cases hb : b.data.isSuffixOf t.data
  · rfl
  · rw [List.isSuffixOf_iff_suffix] at hb
    rcases List.suffix_or_suffix_of_suffix ha hb with h | h
    · exact absurd h hab
    · exact absurd h hba

theorem ends_contains {t : String} (pat : String) {c : Char}
    (h : strEndsWith t pat = true) (hc : c ∈ pat.data) :
    strContainsChar t c = true := by
  unfold strEndsWith at h
  rw [List.isSuffixOf_iff_suffix] at h
  exact List.elem_eq_true_of_mem (h.subset hc)

theorem contains_to_false {t pat ext : String}
    (himp : strContainsSub t pat = true → strEndsWith t ext = true)
    (hF : strEndsWith t ext = false) : strContainsSub t pat = false := by
  cases h : strContainsSub t pat
  · rfl
  · have hT := himp h
    rw [hF] at hT
    exact Bool.noConfusion hT

/-- C3 counterexample. The target `"a.jar:b.py"` ends with exactly one
canonical extension (`.py`), yet two registered predicates accept it: the
Python one (suffix `.py`) and the Java one (substring `".jar:"`), so the
claim "exactly one analyzer predicate accepts it" fails as stated. -/
theorem c3_counterexample :
    strEndsWith "a.jar:b.py" ".py" = true
    ∧ strEndsWith "a.jar:b.py" ".java" = false
    ∧ strEndsWith "a.jar:b.py" ".js" = false
    ∧ strEndsWith "a.jar:b.py" ".go" = false
    ∧ strEndsWith "a.jar:b.py" ".rs" = false
    ∧ pythonCanHandle "a.jar:b.py" = true
    ∧ javaCanHandle "a.jar:b.py" = true
    ∧ acceptCount "a.jar:b.py" = 2 := by decide

/-- C3 amended. For every target that ends with exactly one of the
canonical extensions `.py`, `.java`, `.js`, `.go`, `.rs`, *and* that does
not contain the substring `".jar:"` unless it ends with `.java`, nor the
substring `"::"` unless it ends with `.rs`, exactly one of the five
registered analyzer predicates accepts it. -/
theorem c3_amended (t : String)
    (hext : strEndsWith t ".py" = true ∨ strEndsWith t ".java" = true
      ∨ strEndsWith t ".js" = true ∨ strEndsWith t ".go" = true
      ∨ strEndsWith t ".rs" = true)
    (hjar : strContainsSub t ".jar:" = true → strEndsWith t ".java" = true)
    (hcc : strContainsSub t "::" = true → strEndsWith t ".rs" = true) :
    acceptCount t = 1 := by
  obtain hpy | hjava | hjs | hgo | hrs := hext
  · have hjavaF := ends_mutex ".py" ".java" (by decide) (by decide) hpy
    have hjsF := ends_mutex ".py" ".js" (by decide) (by decide) hpy
    have hmjsF := ends_mutex ".py" ".mjs" (by decide) (by decide) hpy
    have hcjsF := ends_mutex ".py" ".cjs" (by decide) (by decide) hpy
    have hgoF := ends_mutex ".py" ".go" (by decide) (by decide) hpy
    have hrsF := ends_mutex ".py" ".rs" (by decide) (by decide) hpy
    have hdot := ends_contains ".py" hpy (c := '.') (by decide)
    have hjarF := contains_to_false hjar hjavaF
    have hccF := contains_to_false hcc hrsF
    simp [acceptCount, pythonCanHandle, javaCanHandle, nodejsCanHandle, goCanHandle,
      rustCanHandle, hpy, hjavaF, hjsF, hmjsF, hcjsF, hgoF, hrsF, hdot, hjarF, hccF]
  · have hpyF := ends_mutex ".java" ".py" (by decide) (by decide) hjava
    have hjsF := ends_mutex ".java" ".js" (by decide) (by decide) hjava
    have hmjsF := ends_mutex ".java" ".mjs" (by decide) (by decide) hjava
    have hcjsF := ends_mutex ".java" ".cjs" (by decide) (by decide) hjava
    have hgoF := ends_mutex ".java" ".go" (by decide) (by decide) hjava
    have hrsF := ends_mutex ".java" ".rs" (by decide) (by decide) hjava
    have hdot := ends_contains ".java" hjava (c := '.') (by decide)
    have hccF := contains_to_false hcc hrsF
    simp [acceptCount, pythonCanHandle, javaCanHandle, nodejsCanHandle, goCanHandle,
      rustCanHandle, hjava, hpyF, hjsF, hmjsF, hcjsF, hgoF, hrsF, hdot, hccF]
  · have hpyF := ends_mutex ".js" ".py" (by decide) (by decide) hjs
    have hjavaF := ends_mutex ".js" ".java" (by decide) (by decide) hjs
    have hgoF := ends_mutex ".js" ".go" (by decide) (by decide) hjs
    have hrsF := ends_mutex ".js" ".rs" (by decide) (by decide) hjs
    have hdot := ends_contains ".js" hjs (c := '.') (by decide)
    have hjarF := contains_to_false hjar hjavaF
    have hccF := contains_to_false hcc hrsF
    simp [acceptCount, pythonCanHandle, javaCanHandle, nodejsCanHandle, goCanHandle,
      rustCanHandle, hjs, hpyF, hjavaF, hgoF, hrsF, hdot, hjarF, hccF]
  · have hpyF := ends_mutex ".go" ".py" (by decide) (by decide) hgo
    have hjavaF := ends_mutex ".go" ".java" (by decide) (by decide) hgo
    have hjsF := ends_mutex ".go" ".js" (by decide) (by decide) hgo
    have hmjsF := ends_mutex ".go" ".mjs" (by decide) (by decide) hgo
    have hcjsF := ends_mutex ".go" ".cjs" (by decide) (by decide) hgo
    have hrsF := ends_mutex ".go" ".rs" (by decide) (by decide) hgo
    have hdot := ends_contains ".go" hgo (c := '.') (by decide)
    have hjarF := contains_to_false hjar hjavaF
    have hccF := contains_to_false hcc hrsF
    simp [acceptCount, pythonCanHandle, javaCanHandle, nodejsCanHandle, goCanHandle,
      rustCanHandle, hgo, hpyF, hjavaF, hjsF, hmjsF, hcjsF, hrsF, hdot, hjarF, hccF]
  · have hpyF := ends_mutex ".rs" ".py" (by decide) (by decide) hrs
    have hjavaF := ends_mutex ".rs" ".java" (by decide) (by decide) hrs
    have hjsF := ends_mutex ".rs" ".js" (by decide) (by decide) hrs
    have hmjsF := ends_mutex ".rs" ".mjs" (by decide) (by decide) hrs
    have hcjsF := ends_mutex ".rs" ".cjs" (by decide) (by decide) hrs
    have hgoF := ends_mutex ".rs" ".go" (by decide) (by decide) hrs
    have hdot := ends_contains ".rs" hrs (c := '.') (by decide)
    have hjarF := contains_to_false hjar hjavaF
    simp [acceptCount, pythonCanHandle, javaCanHandle, nodejsCanHandle, goCanHandle,
      rustCanHandle, hrs, hpyF, hjavaF, hjsF, hmjsF, hcjsF, hgoF, hdot, hjarF]

/-- Witness for C3 amended at `"a.py"`. -/
theorem c3_witness : acceptCount "a.py" = 1 :=
  c3_amended "a.py" (Or.inl (by decide)) (by decide) (by decide)

/-- C4 counterexample. For the module-form target
`"tests.rust.escape_threads:spawn_detached_thread"` with selected language
`rust`, `resolve_source_file` produces `"tests/rust/escape_threads.py"` —
it always appends `".py"`, not the selected language's canonical extension
`".rs"` — regardless of which paths exist. -/
theorem c4_counterexample :
    resolve_source_file (fun _ => false) "tests.rust.escape_threads:spawn_detached_thread"
      = "tests/rust/escape_threads.py"
    ∧ resolve_source_file (fun _ => false) "tests.rust.escape_threads:spawn_detached_thread"
      ≠ "tests/rust/escape_threads" ++ canonicalExtension "rust" := by
  refine ⟨by decide, by decide⟩

theorem splitOnChar_append_cons (c : Char) (b : List Char) :
    ∀ a : List Char, c ∉ a →
      splitOnChar c (a ++ c :: b) = a :: splitOnChar c b := by
  intro a
  induction a with
  | nil => intro _; simp [splitOnChar]
  | cons x t ih =>
    intro h
    have hx : ¬(x = c) := fun he => h (he ▸ List.mem_cons_self x t)
    have ht : c ∉ t := fun hm => h (List.mem_cons_of_mem x hm)
    simp only [List.cons_append, splitOnChar, if_neg hx, List.append_eq]
    rw [ih ht]

theorem string_mk_data (s : String) : String.mk s.data = s := rfl

/-- C4 amended. For every target of the form `module.submodule:fn` whose
module part contains no path separator, no `':'`, and does not end with
`".py"` (those are returned verbatim), `resolve_source_file` replaces every
`'.'` by `'/'` in the module part and appends `".py"` — regardless of the
selected language — attempting existence at the project root and then under
`tests/` before returning the constructed path. -/
theorem c4_amended (ex : String → Bool) (modPart fnPart : String)
    (h1 : strContainsChar modPart '/' = false)
    (h2 : strContainsChar modPart '\\' = false)
    (h3 : strEndsWith modPart ".py" = false)
    (h4 : strContainsChar modPart ':' = false) :
    resolve_source_file ex (modPart ++ ":" ++ fnPart)
      = (let file_path :=
           String.mk (modPart.data.map (fun c => if c = '.' then '/' else c)) ++ ".py"
         if ex file_path then file_path
         else if ex ("tests/" ++ file_path) then "tests/" ++ file_path
         else file_path) := by
  have hdata : (modPart ++ ":" ++ fnPart).data = modPart.data ++ ':' :: fnPart.data := by
    simp [String.data_append]
  have hnotin : ':' ∉ modPart.data := by
    intro hm
    have hc : strContainsChar modPart ':' = true := List.elem_eq_true_of_mem hm
    rw [h4] at hc
    exact Bool.noConfusion hc
  have hmem : strContainsChar (modPart ++ ":" ++ fnPart) ':' = true := by
    unfold strContainsChar
    rw [hdata]
    exact List.elem_eq_true_of_mem (by simp)
  unfold resolve_source_file
  rw [hmem, if_pos rfl, hdata, splitOnChar_append_cons _ _ _ hnotin]
  simp only [List.headD_cons, string_mk_data, h1, h2, h3, Bool.or_self, Bool.or_false,
    Bool.false_or, if_neg (Bool.false_ne_true)]

/-- Witness for C4 amended: module target `"a.b:f"` with no path existing
resolves to `"a/b.py"`. -/
theorem c4_witness : resolve_source_file (fun _ => false) "a.b:f" = "a/b.py" := by
  have h := c4_amended (fun _ => false) "a.b" "f" (by decide) (by decide) (by decide) (by decide)
  have he : ("a.b" ++ ":" ++ "f" : String) = "a.b:f" := by decide
  rw [he] at h
  rw [h]
  decide

namespace Bridge

theorem foldl_stepExec_spec (l : List (String × Obs)) :
    ∀ st : LoopSt,
      (l.foldl (fun s pr => stepExec s pr.1 pr.2) st).results
          = st.results ++ l.map (fun pr => execute_test pr.1 pr.2)
      ∧ (l.foldl (fun s pr => stepExec s pr.1 pr.2) st).vulnerabilities
          = st.vulnerabilities ++ l.foldr
              (fun pr acc =>
                (if (execute_test pr.1 pr.2).escape_detected then
                  [mkVulnerability pr.1 (execute_test pr.1 pr.2)] else []) ++ acc) []
      ∧ (l.foldl (fun s pr => stepExec s pr.1 pr.2) st).successes
          = st.successes + l.countP (fun pr => (execute_test pr.1 pr.2).success)
      ∧ (l.foldl (fun s pr => stepExec s pr.1 pr.2) st).crashes
          = st.crashes + l.countP (fun pr => (execute_test pr.1 pr.2).crashed)
      ∧ (l.foldl (fun s pr => stepExec s pr.1 pr.2) st).timeouts
          = st.timeouts
            + l.countP (fun pr => strContainsSub (execute_test pr.1 pr.2).error "Timeout")
      ∧ (l.foldl (fun s pr => stepExec s pr.1 pr.2) st).escapes
          = st.escapes + l.countP (fun pr => (execute_test pr.1 pr.2).escape_detected)
      ∧ (l.foldl (fun s pr => stepExec s pr.1 pr.2) st).genuine_escapes
          = st.genuine_escapes
            + l.countP (fun pr => (execute_test pr.1 pr.2).escape_detected
                && !(strContainsSub (execute_test pr.1 pr.2).error "Timeout")) := by
  induction l with
  | nil => intro st; simp
  | cons hd tl ih =>
    intro st
    obtain ⟨ihr, ihv, ihs, ihc, iht, ihe, ihg⟩ := ih (stepExec st hd.1 hd.2)
    simp only [List.foldl_cons, List.map_cons, List.countP_cons, List.foldr_cons]
    refine ⟨?_, ?_, ?_, ?_, ?_, ?_, ?_⟩
    · rw [ihr]; simp [stepExec]
    · rw [ihv]; simp [stepExec]
    · rw [ihs]; simp only [stepExec]
      by_cases h : (execute_test hd.1 hd.2).success <;> simp [h] <;> omega
    · rw [ihc]; simp only [stepExec]
      by_cases h : (execute_test hd.1 hd.2).crashed <;> simp [h] <;> omega
    · rw [iht]; simp only [stepExec]
      by_cases h : strContainsSub (execute_test hd.1 hd.2).error "Timeout" <;>
        simp [h] <;> omega
    · rw [ihe]; simp only [stepExec]
      by_cases h : (execute_test hd.1 hd.2).escape_detected <;> simp [h] <;> omega
    · rw [ihg]; simp only [stepExec]
      by_cases h : ((execute_test hd.1 hd.2).escape_detected
          && !(strContainsSub (execute_test hd.1 hd.2).error "Timeout")) <;>
        simp [h] <;> omega

theorem analyze_fold_flat (request : AnalyzeRequest) (obs : Nat → Nat → Obs) :
    request.inputs.enum.foldl
      (fun s p =>
        (List.range request.repeatCount).foldl (fun s2 j => stepExec s2 p.2 (obs p.1 j)) s)
      initSt
    = (execsOf request.inputs request.repeatCount obs).foldl
        (fun s pr => stepExec s pr.1 pr.2) initSt := by
  unfold execsOf
  rw [List.foldl_flatten, List.foldl_map]
  have hfun : (fun (s : LoopSt) (p : Nat × String) =>
        (List.range request.repeatCount).foldl (fun s2 j => stepExec s2 p.2 (obs p.1 j)) s)
      = fun (s : LoopSt) (p : Nat × String) =>
        ((List.range request.repeatCount).map (fun j => (p.2, obs p.1 j))).foldl
          (fun s2 pr => stepExec s2 pr.1 pr.2) s := by
    funext s p
    rw [List.foldl_map]
  rw [hfun]

theorem execsOf_length (inputs : List String) (rep : Nat) (obs : Nat → Nat → Obs) :
    (execsOf inputs rep obs).length = inputs.length * rep := by
  unfold execsOf
  rw [List.length_flatten]
  have h : List.map List.length
        (List.map (fun p => (List.range rep).map (fun j => (p.2, obs p.1 j))) inputs.enum)
      = List.replicate inputs.enum.length rep := by
    rw [List.map_map, ← List.map_const']
    refine List.map_congr_left fun p _ => ?_
    simp [Function.comp]
  rw [h, List.sum_const_nat, List.enum_length]

theorem analyze_results_eq (request : AnalyzeRequest) (obs : Nat → Nat → Obs) :
    (analyze request obs).results = resultsOf request obs := by
  unfold analyze resultsOf
  rw [analyze_fold_flat]
  have h := (foldl_stepExec_spec (execsOf request.inputs request.repeatCount obs) initSt).1
  simpa [initSt] using h

theorem analyze_escapes_eq (request : AnalyzeRequest) (obs : Nat → Nat → Obs) :
    (analyze request obs).summary.escapes
      = (execsOf request.inputs request.repeatCount obs).countP
          (fun pr => (execute_test pr.1 pr.2).escape_detected) := by
  unfold analyze
  rw [analyze_fold_flat]
  have h := (foldl_stepExec_spec (execsOf request.inputs request.repeatCount obs)
    initSt).2.2.2.2.2.1
  simpa [initSt] using h

theorem analyze_genuine_eq (request : AnalyzeRequest) (obs : Nat → Nat → Obs) :
    (analyze request obs).summary.genuine_escapes
      = (execsOf request.inputs request.repeatCount obs).countP
          (fun pr => (execute_test pr.1 pr.2).escape_detected
            && !(strContainsSub (execute_test pr.1 pr.2).error "Timeout")) := by
  unfold analyze
  rw [analyze_fold_flat]
  have h := (foldl_stepExec_spec (execsOf request.inputs request.repeatCount obs)
    initSt).2.2.2.2.2.2
  simpa [initSt] using h

theorem analyze_crashes_eq (request : AnalyzeRequest) (obs : Nat → Nat → Obs) :
    (analyze request obs).summary.crashes
      = (execsOf request.inputs request.repeatCount obs).countP
          (fun pr => (execute_test pr.1 pr.2).crashed) := by
  unfold analyze
  rw [analyze_fold_flat]
  have h := (foldl_stepExec_spec (execsOf request.inputs request.repeatCount obs)
    initSt).2.2.2.1
  simpa [initSt] using h

/-- In every `execute_test` result, the error text contains `"Timeout"`
exactly when the invocation outcome was `TimedOut`: a completed run has an
empty error, a panic yields the fixed `"Panic: Any { .. }"` text, and a
timeout yields `"Timeout exceeded"`. -/
theorem error_timeout_eq (input : String) (ob : Obs) :
    strContainsSub (execute_test input ob).error "Timeout" = ob.outcome.isTimedOut := by
  obtain ⟨oc, base, cur, el⟩ := ob
  cases oc <;> by_cases h : cur > base <;>
    simp only [execute_test, Outcome.isTimedOut, if_pos, if_neg, h, if_true, if_false] <;>
    decide

end Bridge

/-- C6. Every `ExecutionResult` produced by the probe's supervised
execution loop has `success` and `crashed` mutually exclusive and jointly
exhaustive: exactly one of the three channel outcomes fires, setting
exactly one of the two flags. -/
theorem c6_success_crashed_exclusive (input : String) (ob : Bridge.Obs) :
    ((Bridge.execute_test input ob).success && (Bridge.execute_test input ob).crashed) = false
    ∧ ((Bridge.execute_test input ob).success || (Bridge.execute_test input ob).crashed)
        = true := by
  obtain ⟨oc, base, cur, el⟩ := ob
  cases oc <;> by_cases h : cur > base <;> simp [Bridge.execute_test, h]

/-- C7. For every `ExecutionResult` produced by the probe,
`escape_detected` is true iff `EscapeDetails::is_empty` is false, i.e. at
least one of the five typed collections (`threads`, `processes`,
`async_tasks`, `goroutines`, `other`) is non-empty. -/
theorem c7_escape_witness (input : String) (ob : Bridge.Obs) :
    (Bridge.execute_test input ob).escape_detected
      = !((Bridge.execute_test input ob).escape_details.is_empty) := by
  obtain ⟨oc, base, cur, el⟩ := ob
  cases oc <;> by_cases h : cur > base <;>
    simp [Bridge.execute_test, EscapeDetails.is_empty, EscapeDetails.default, h]

/-- C5. Over any completed probe session, a result is counted in
`summary.genuine_escapes` iff its escape was detected and its invocation
outcome was not `TimedOut`; in particular a `Faulted` (panic) result with a
detected escape is always counted (its error text is the fixed
`"Panic: Any { .. }"`, which never contains `"Timeout"`), and a `TimedOut`
result never is. -/
theorem c5_genuine_escape_classification (request : Bridge.AnalyzeRequest)
    (obs : Nat → Nat → Bridge.Obs) :
    (Bridge.analyze request obs).summary.genuine_escapes
      = (Bridge.execsOf request.inputs request.repeatCount obs).countP
          (fun pr => (Bridge.execute_test pr.1 pr.2).escape_detected
            && !(pr.2.outcome.isTimedOut)) := by
  rw [Bridge.analyze_genuine_eq]
  refine List.countP_congr ?_
  intro pr _
  rw [Bridge.error_timeout_eq pr.1 pr.2]

/-- C8. For every completed probe session: `summary.total_tests` equals
`len(results)` equals `len(inputs) × repeat`; `genuine_escapes ≤ escapes`;
`crash_rate` is `0` when `total_tests = 0` and `crashes / total_tests`
otherwise; and `results` is exactly the per-execution results in order with
the repeat index varying fastest (`resultsOf`). -/
theorem c8_count_invariants (request : Bridge.AnalyzeRequest)
    (obs : Nat → Nat → Bridge.Obs) :
    (Bridge.analyze request obs).summary.total_tests
        = (Bridge.analyze request obs).results.length
    ∧ (Bridge.analyze request obs).results.length
        = request.inputs.length * request.repeatCount
    ∧ (Bridge.analyze request obs).summary.genuine_escapes
        ≤ (Bridge.analyze request obs).summary.escapes
    ∧ ((Bridge.analyze request obs).summary.total_tests = 0 →
        (Bridge.analyze request obs).summary.crash_rate = 0)
    ∧ ((Bridge.analyze request obs).summary.total_tests ≠ 0 →
        (Bridge.analyze request obs).summary.crash_rate
          = ((Bridge.analyze request obs).summary.crashes : ℚ)
              / ((Bridge.analyze request obs).summary.total_tests : ℚ))
    ∧ (Bridge.analyze request obs).results = Bridge.resultsOf request obs := by
  have hres := Bridge.analyze_results_eq request obs
  have hlen : (Bridge.analyze request obs).results.length
      = request.inputs.length * request.repeatCount := by
    rw [hres]
    unfold Bridge.resultsOf
    rw [List.length_map, Bridge.execsOf_length]
  have htot : (Bridge.analyze request obs).summary.total_tests
      = (Bridge.analyze request obs).results.length := rfl
  have hmono : (Bridge.analyze request obs).summary.genuine_escapes
      ≤ (Bridge.analyze request obs).summary.escapes := by
    rw [Bridge.analyze_genuine_eq, Bridge.analyze_escapes_eq]
    refine List.countP_mono_left ?_
    intro pr _ h
    exact (Bool.and_eq_true ..).mp h |>.1
  refine ⟨htot, hlen, hmono, ?_, ?_, hres⟩
  · intro h0
    show (if (Bridge.analyze request obs).summary.total_tests > 0
        then ((Bridge.analyze request obs).summary.crashes : ℚ)
          / ((Bridge.analyze request obs).summary.total_tests : ℚ)
        else 0) = 0
    rw [if_neg (by omega)]
  · intro hne
    show (if (Bridge.analyze request obs).summary.total_tests > 0
        then ((Bridge.analyze request obs).summary.crashes : ℚ)
          / ((Bridge.analyze request obs).summary.total_tests : ℚ)
        else 0)
      = ((Bridge.analyze request obs).summary.crashes : ℚ)
          / ((Bridge.analyze request obs).summary.total_tests : ℚ)
    rw [if_pos (Nat.pos_of_ne_zero hne)]

namespace RustStatic

theorem accumSig_ge (lines : List (List Char)) :
    ∀ (fuel i : Nat) (sig : List Char), i ≤ (accumSig lines fuel i sig).2 := by
  intro fuel
  induction fuel with
  | zero => intro i sig; rfl
  | succ fuel ih =>
    intro i sig
    by_cases h : containsSub sig [lbrace] = false ∧ i + 1 < lines.length
    · rw [accumSig, if_pos h]
      have := ih (i + 1) (sig ++ '\n' :: lines.getD (i + 1) [])
      omega
    · rw [accumSig, if_neg h]

theorem detect_return_escape_type {line : List Char} {sf : String} {ln : Nat}
    {fn : String} {locals : List String} {e : StaticEscape}
    (h : detect_return_escape line sf ln fn locals = some e) :
    e.escape_type = EscapeType.ReturnEscape := by
  unfold detect_return_escape at h
  split at h
  · exact Option.noConfusion h
  · simp only [] at h
    split at h
    · exact Option.noConfusion h
    · split at h
      · cases h; rfl
      · exact Option.noConfusion h

theorem detect_heap_escape_type {line : List Char} {sf : String} {ln : Nat}
    {fn : String} {e : StaticEscape}
    (h : detect_heap_escape line sf ln fn = some e) :
    e.escape_type = EscapeType.HeapEscape := by
  unfold detect_heap_escape at h
  split at h
  · exact Option.noConfusion h
  · cases h; rfl

theorem detect_concurrency_spec {line : List Char} {sf : String} {ln : Nat}
    {fn : String} {e : StaticEscape}
    (h : detect_concurrency line sf ln fn = some e) :
    e.escape_type = EscapeType.ConcurrencyEscape ∧ e.confidence = ConfidenceLevel.High := by
  unfold detect_concurrency at h
  split at h
  · exact Option.noConfusion h
  · cases h; exact ⟨rfl, rfl⟩

theorem handleEscape_spec {src : List (List Char)} {sf fn handle : String} {e : StaticEscape}
    (h : handleEscape src sf fn handle = some e) :
    e.escape_type = EscapeType.ConcurrencyEscape ∧ e.confidence = ConfidenceLevel.High
      ∧ e.reason = "Thread/task handle \x27" ++ e.variable_name
          ++ "\x27 created but not joined" := by
  unfold handleEscape at h
  split at h
  · cases h
    exact ⟨rfl, rfl, rfl⟩
  · exact Option.noConfusion h

theorem bodyStep_escape_types {line : List Char} {sf : String} {ln : Nat} {fn : String}
    {st : FnSt}
    (hst : ∀ e ∈ st.escapes,
      e.escape_type = EscapeType.ReturnEscape ∨ e.escape_type = EscapeType.HeapEscape) :
    ∀ e ∈ (bodyStep line sf ln fn st).escapes,
      e.escape_type = EscapeType.ReturnEscape ∨ e.escape_type = EscapeType.HeapEscape := by
  intro e he
  simp only [bodyStep] at he
  split at he
  · split at he
    · rcases List.mem_append.mp he with h1 | h2
      · rcases List.mem_append.mp h1 with ha | hb
        · exact hst e ha
        · obtain rfl := List.mem_singleton.mp hb
          exact Or.inl (detect_return_escape_type (by assumption))
      · obtain rfl := List.mem_singleton.mp h2
        exact Or.inr (detect_heap_escape_type (by assumption))
    · rcases List.mem_append.mp he with h1 | h2
      · exact hst e h1
      · obtain rfl := List.mem_singleton.mp h2
        exact Or.inr (detect_heap_escape_type (by assumption))
  · split at he
    · rcases List.mem_append.mp he with h1 | h2
      · exact hst e h1
      · obtain rfl := List.mem_singleton.mp h2
        exact Or.inl (detect_return_escape_type (by assumption))
    · exact hst e he

theorem af_loop_escape_types (lines : List (List Char)) (sf fn : String) :
    ∀ (fuel i : Nat) (it : Bool) (bd : Int) (st : FnSt),
      (∀ e ∈ st.escapes,
        e.escape_type = EscapeType.ReturnEscape ∨ e.escape_type = EscapeType.HeapEscape) →
      ∀ e ∈ (af_loop lines sf fn fuel i it bd st).escapes,
        e.escape_type = EscapeType.ReturnEscape ∨ e.escape_type = EscapeType.HeapEscape := by
  intro fuel
  induction fuel with
  | zero => intro i it bd st hst e he; exact hst e he
  | succ fuel ih =>
    intro i it bd st hst e he
    simp only [af_loop] at he
    split at he
    · split at he
      · split at he
        · split at he
          · refine ih _ _ _ _ ?_ e he
            exact hst
          · refine ih _ _ _ _ ?_ e he
            exact hst
        · refine ih _ _ _ _ ?_ e he
          exact hst
      · split at he
        · exact bodyStep_escape_types hst e he
        · refine ih _ _ _ _ ?_ e he
          exact bodyStep_escape_types hst
    · exact hst e he

theorem analyze_function_concurrency (source : List String) (sf fn : String) :
    ∀ e ∈ (analyze_function source sf fn).1,
      e.escape_type = EscapeType.ConcurrencyEscape →
        e.confidence = ConfidenceLevel.High
        ∧ e.reason = "Thread/task handle \x27" ++ e.variable_name
            ++ "\x27 created but not joined" := by
  intro e he hty
  simp only [analyze_function] at he
  rcases List.mem_append.mp he with hl | hr
  · have hP := af_loop_escape_types (source.map String.data) sf fn
      (source.map String.data).length 0 false 0 ⟨[], [], [], [], false⟩
      (by intro e h; exact absurd h (List.not_mem_nil e)) e hl
    rcases hP with h | h
    · rw [hty] at h; exact EscapeType.noConfusion h
    · rw [hty] at h; exact EscapeType.noConfusion h
  · rcases List.mem_filterMap.mp hr with ⟨handle, _, hfm⟩
    split at hfm
    · exact Option.noConfusion hfm
    · obtain ⟨_, hconf, hreason⟩ := handleEscape_spec hfm
      exact ⟨hconf, hreason⟩

theorem rustAnalyze_concurrency_high (target : String) (source : List String) (sf : String) :
    ∀ e ∈ (rustAnalyze target source sf).escapes,
      e.escape_type = EscapeType.ConcurrencyEscape → e.confidence = ConfidenceLevel.High := by
  intro e he hty
  simp only [rustAnalyze] at he
  split at he
  · exact (analyze_function_concurrency _ _ _ e he hty).1
  · rcases List.mem_filterMap.mp he with ⟨p, _, hdc⟩
    exact (detect_concurrency_spec hdc).2

end RustStatic

set_option maxRecDepth 1000000 in
/-- C1 counterexample. The body of `spawn_detached_thread` (exactly as in
`tests/rust/escape_threads.rs`) contains the spawn pattern `thread::spawn`,
yet function-scoped analysis emits no escape at all — `analyze_function`
never calls `detect_concurrency` and only flags `let`-bound unjoined
handles — so `concurrency_escapes = 0`, refuting "at least one
`ConcurrencyEscape` with High confidence".  For the claim's literal target
`tests/rust/advanced_escapes.rs:spawn_detached_thread`, the real content of
`tests/rust/advanced_escapes.rs` contains no function of that name, and
`concurrency_escapes = 0` with a "not found" warning — refuting
`static_analysis.summary.concurrency_escapes ≥ 1`. -/
theorem c1_counterexample :
    containsSub (String.data "    thread::spawn(move || \x7b") (String.data "thread::spawn")
        = true
    ∧ (RustStatic.rustAnalyze "tests/rust/escape_threads.rs:spawn_detached_thread"
        RustStatic.bareSpawnSrc "tests/rust/escape_threads.rs").escapes = []
    ∧ (RustStatic.rustAnalyze "tests/rust/escape_threads.rs:spawn_detached_thread"
        RustStatic.bareSpawnSrc "tests/rust/escape_threads.rs").summary.concurrency_escapes
        = 0
    ∧ (RustStatic.rustAnalyze "tests/rust/escape_threads.rs:spawn_detached_thread"
        RustStatic.bareSpawnSrc "tests/rust/escape_threads.rs").warnings
        = ["No Rust escapes detected by heuristic analyzer"]
    ∧ (RustStatic.rustAnalyze "tests/rust/advanced_escapes.rs:spawn_detached_thread"
        RustStatic.advancedEscapesSrc
        "tests/rust/advanced_escapes.rs").summary.concurrency_escapes = 0
    ∧ (RustStatic.rustAnalyze "tests/rust/advanced_escapes.rs:spawn_detached_thread"
        RustStatic.advancedEscapesSrc "tests/rust/advanced_escapes.rs").warnings
        = ["Target function \x27spawn_detached_thread\x27 not found in source file",
           "No Rust escapes detected by heuristic analyzer"] :=
  ⟨by decide, by decide, by decide, by decide, by decide, by decide⟩

set_option maxRecDepth 1000000 in
/-- C1 amended. In function-scoped analysis the Rust static analyzer emits
a `ConcurrencyEscape` only through the unjoined-handle check — every such
finding carries High confidence and the reason
`"Thread/task handle '<name>' created but not joined"` — so a body whose
spawn expression is bound to a never-joined `let` handle yields one High
finding, while a body containing a bare spawn pattern yields none; in
particular both `spawn_detached_thread` bodies and the claim's literal
target `tests/rust/advanced_escapes.rs:spawn_detached_thread` (a function
absent from that file) yield `concurrency_escapes = 0`. -/
theorem c1_amended :
    (∀ target source source_file,
      ∀ e ∈ (RustStatic.rustAnalyze target source source_file).escapes,
        e.escape_type = EscapeType.ConcurrencyEscape →
          e.confidence = ConfidenceLevel.High)
    ∧ (∀ source source_file function_name,
        ∀ e ∈ (RustStatic.analyze_function source source_file function_name).1,
          e.escape_type = EscapeType.ConcurrencyEscape →
            e.reason = "Thread/task handle \x27" ++ e.variable_name
              ++ "\x27 created but not joined")
    ∧ (RustStatic.rustAnalyze "f.rs:spawn_unjoined" RustStatic.letSpawnSrc
        "f.rs").summary.concurrency_escapes = 1
    ∧ (RustStatic.rustAnalyze "f.rs:spawn_unjoined" RustStatic.letSpawnSrc
        "f.rs").summary.high_confidence = 1
    ∧ (RustStatic.rustAnalyze "tests/rust/escape_threads.rs:spawn_detached_thread"
        RustStatic.bareSpawnSrc "tests/rust/escape_threads.rs").summary.concurrency_escapes
        = 0
    ∧ (RustStatic.rustAnalyze "tests/rust/advanced_escapes.rs:spawn_detached_thread"
        RustStatic.advancedEscapesSrc
        "tests/rust/advanced_escapes.rs").summary.concurrency_escapes = 0 :=
  ⟨RustStatic.rustAnalyze_concurrency_high,
   fun source sf fn e he hty =>
     (RustStatic.analyze_function_concurrency source sf fn e he hty).2,
   by decide, by decide, by decide, by decide⟩

set_option maxRecDepth 1000000 in
/-- Witness for C1 amended: the single finding of the unjoined-handle
source is a `ConcurrencyEscape`, and the amended theorem applied to it
yields High confidence. -/
theorem c1_witness :
    ((RustStatic.rustAnalyze "f.rs:spawn_unjoined" RustStatic.letSpawnSrc
        "f.rs").escapes.getD 0 RustStatic.probeEscape).confidence
      = ConfidenceLevel.High := by
  have hmem : ((RustStatic.rustAnalyze "f.rs:spawn_unjoined" RustStatic.letSpawnSrc
      "f.rs").escapes.getD 0 RustStatic.probeEscape)
      ∈ (RustStatic.rustAnalyze "f.rs:spawn_unjoined" RustStatic.letSpawnSrc
        "f.rs").escapes := by decide
  have hty : ((RustStatic.rustAnalyze "f.rs:spawn_unjoined" RustStatic.letSpawnSrc
      "f.rs").escapes.getD 0 RustStatic.probeEscape).escape_type
      = EscapeType.ConcurrencyEscape := by decide
  exact c1_amended.1 "f.rs:spawn_unjoined" RustStatic.letSpawnSrc "f.rs" _ hmem hty

/-- Witness for C8 at a concrete session (one input, repeat 1, completed
outcome): the crash-rate equation holds with `total_tests ≠ 0`
discharged. -/
theorem c8_witness :
    (Bridge.analyze ⟨"s", "t", ["a"], 1, 2⟩
        (fun _ _ => ⟨Bridge.Outcome.completed "ok", 1, 1, 5⟩)).summary.crash_rate
      = ((Bridge.analyze ⟨"s", "t", ["a"], 1, 2⟩
            (fun _ _ => ⟨Bridge.Outcome.completed "ok", 1, 1, 5⟩)).summary.crashes : ℚ)
          / ((Bridge.analyze ⟨"s", "t", ["a"], 1, 2⟩
              (fun _ _ => ⟨Bridge.Outcome.completed "ok", 1, 1, 5⟩)).summary.total_tests : ℚ) := by
  have h := c8_count_invariants ⟨"s", "t", ["a"], 1, 2⟩
    (fun _ _ => ⟨Bridge.Outcome.completed "ok", 1, 1, 5⟩)
  refine h.2.2.2.2.1 ?_
  have hone : (Bridge.analyze ⟨"s", "t", ["a"], 1, 2⟩
      (fun _ _ => ⟨Bridge.Outcome.completed "ok", 1, 1, 5⟩)).summary.total_tests = 1 := by
    rw [h.1, h.2.1]
    decide
  omega

end GrapheneHA
